import Mathlib

/-!
Shallow embedding of the uptime-kuma monitor runtime
(`src/server/model/monitor.js`), and proofs about the claims of the
specification: status classification, the retry/resend beat state machine,
group aggregation, the push-monitor window check, TLS certificate expiry
notification dedup, timeout normalization, and the uptime-ratio arithmetic.
-/

namespace UptimeKuma

/-- Monitor/heartbeat status, per `src/util`: DOWN=0, UP=1, PENDING=2,
MAINTENANCE=3. -/
inductive Status where
  | DOWN
  | UP
  | PENDING
  | MAINTENANCE
deriving DecidableEq, Repr, Fintype

open Status

/-- `Monitor.isImportantBeat` (monitor.js:1518-1542), translated clause by
clause.  `prev = none` models the JS `undefined` previous-beat status; the JS
strict equality `undefined === X` is false for every status `X`. -/
def isImportantBeat (isFirstBeat : Bool) (previousBeatStatus : Option Status)
    (currentBeatStatus : Status) : Bool :=
  isFirstBeat ||
    (previousBeatStatus == some DOWN && currentBeatStatus == MAINTENANCE) ||
    (previousBeatStatus == some UP && currentBeatStatus == MAINTENANCE) ||
    (previousBeatStatus == some MAINTENANCE && currentBeatStatus == DOWN) ||
    (previousBeatStatus == some MAINTENANCE && currentBeatStatus == UP) ||
    (previousBeatStatus == some UP && currentBeatStatus == DOWN) ||
    (previousBeatStatus == some DOWN && currentBeatStatus == UP) ||
    (previousBeatStatus == some PENDING && currentBeatStatus == DOWN)

/-- `Monitor.isImportantForNotification` (monitor.js:1551-1572), translated
clause by clause. -/
def isImportantForNotification (isFirstBeat : Bool)
    (previousBeatStatus : Option Status) (currentBeatStatus : Status) : Bool :=
  isFirstBeat ||
    (previousBeatStatus == some MAINTENANCE && currentBeatStatus == DOWN) ||
    (previousBeatStatus == some UP && currentBeatStatus == DOWN) ||
    (previousBeatStatus == some DOWN && currentBeatStatus == UP) ||
    (previousBeatStatus == some PENDING && currentBeatStatus == DOWN)

/-- The externally visible effects of `Monitor.sendNotification`
(monitor.js:1580-1618): whether the pre-notification command is executed and
whether the provider dispatch loop is reached.  Both happen exactly when the
guard `!isFirstBeat || bean.status === DOWN` holds; otherwise the function body
is skipped entirely. -/
structure NotifyEffects where
  preCommandRun : Bool
  providersDispatched : Bool
deriving DecidableEq, Repr

/-- `Monitor.sendNotification` (monitor.js:1580-1618) reduced to its control
flow: the whole body (pre-command, then the provider loop) is guarded by
`!isFirstBeat || bean.status === DOWN`. -/
def sendNotification (isFirstBeat : Bool) (status : Status) : NotifyEffects :=
  if !isFirstBeat || status == DOWN then
    { preCommandRun := true, providersDispatched := true }
  else
    { preCommandRun := false, providersDispatched := false }

/-- Modelled from the spec: `flipStatus` lives in `src/util`, which is not part
of the provided sources.  Per §8 of the spec, upside-down flips UP↔DOWN only;
MAINTENANCE and PENDING are never inverted. -/
def flipStatus : Status → Status
  | Status.UP => Status.DOWN
  | Status.DOWN => Status.UP
  | s => s

/-- Monitor configuration fields that drive the beat state machine
(interval/retryInterval only affect scheduling delays, not the recorded
trajectory). -/
structure MonitorConf where
  upsideDown : Bool
  maxretries : Nat
  resendInterval : Nat
deriving DecidableEq, Repr

/-- One tick's externally supplied outcome: the maintenance check fires, the
probe driver mutates the bean to a status with a message, or the probe raises
an error carrying a message (monitor.js tick body, lines 372-1132). -/
inductive Outcome where
  | maintenance
  | probe (s : Status) (msg : String)
  | probeError (msg : String)
deriving DecidableEq, Repr

/-- The heartbeat record produced by one tick, plus instrumentation:
`notified` records that the important-for-notify dispatch path ran,
`resendNotified` that the resend dispatch ran, and `downCountPreReset` the
value of `downCount` at the resend check (equal to the stored `downCount`
when no resend reset happened). -/
structure BeatRec where
  status : Status
  msg : String
  important : Bool
  notified : Bool
  resendNotified : Bool
  downCount : Nat
  downCountPreReset : Nat
deriving DecidableEq, Repr

/-- The per-monitor mutable state threaded between ticks: `previousBeat`'s
status (none before the first beat), the `retries` counter, and the previous
beat's stored `downCount` (`previousBeat?.downCount || 0` reads as 0 before
the first beat). -/
structure RunState where
  prev : Option Status
  retries : Nat
  downCount : Nat
deriving DecidableEq, Repr

/-- The importance classification and downCount/resend block of the tick
(monitor.js:1134-1172): an important beat stores `downCount = 0` and
dispatches notifications when important-for-notify; otherwise a DOWN beat
with `resendInterval > 0` increments `downCount` and, once it reaches
`resendInterval`, re-dispatches and resets it to 0 before the beat is
persisted. -/
def beatRecOf (conf : MonitorConf) (st : RunState) (isFirstBeat : Bool)
    (status : Status) (msg : String) : BeatRec :=
  let important := isImportantBeat isFirstBeat st.prev status
  if important then
    { status := status, msg := msg, important := true,
      notified := isImportantForNotification isFirstBeat st.prev status,
      resendNotified := false, downCount := 0, downCountPreReset := 0 }
  else if status = Status.DOWN ∧ 0 < conf.resendInterval then
    let d := st.downCount + 1
    if conf.resendInterval ≤ d then
      { status := status, msg := msg, important := false,
        notified := false, resendNotified := true, downCount := 0,
        downCountPreReset := d }
    else
      { status := status, msg := msg, important := false,
        notified := false, resendNotified := false, downCount := d,
        downCountPreReset := d }
  else
    { status := status, msg := msg, important := false,
      notified := false, resendNotified := false, downCount := st.downCount,
      downCountPreReset := st.downCount }

/-- One beat of a non-push, non-group monitor (monitor.js:349-1198),
translated from the source:
beat skeleton `status = DOWN` flipped once under upside-down (lines 352-357);
the try block sets the status/msg from the maintenance check or the probe
(lines 372-1103); the post-probe upside-down flip throws `"Flip UP to DOWN"`
when the flipped status is DOWN (lines 1105-1111); a successful try resets
`retries` (line 1113); the catch block sets `msg` from the error and performs
retry accounting (lines 1115-1132); then the importance/downCount block
(`beatRecOf`). -/
def tick (conf : MonitorConf) (st : RunState) (o : Outcome) : RunState × BeatRec :=
  let isFirstBeat : Bool := st.prev == none
  let skeleton := if conf.upsideDown then flipStatus Status.DOWN else Status.DOWN
  -- try block: status and msg after the per-type branch, plus whether an
  -- error was raised (probe errors keep the skeleton status)
  let afterBranch : Status × String × Bool :=
    match o with
    | Outcome.maintenance => (Status.MAINTENANCE, "Monitor under maintenance", false)
    | Outcome.probe s m => (s, m, false)
    | Outcome.probeError m => (skeleton, m, true)
  -- post-probe upside-down flip; reaches here only when no error was raised
  let afterFlip : Status × String × Bool :=
    if afterBranch.2.2 then afterBranch
    else if conf.upsideDown then
      let f := flipStatus afterBranch.1
      if f = Status.DOWN then (f, "Flip UP to DOWN", true)
      else (f, afterBranch.2.1, false)
    else afterBranch
  -- retry accounting: `retries = 0` on success; the catch block otherwise
  let afterRetry : Status × String × Nat :=
    if afterFlip.2.2 then
      if conf.upsideDown ∧ afterFlip.1 = Status.UP then
        (afterFlip.1, afterFlip.2.1, 0)
      else if 0 < conf.maxretries ∧ st.retries < conf.maxretries then
        (Status.PENDING, afterFlip.2.1, st.retries + 1)
      else
        (afterFlip.1, afterFlip.2.1, st.retries)
    else (afterFlip.1, afterFlip.2.1, 0)
  let status := afterRetry.1
  let outRec : BeatRec := beatRecOf conf st isFirstBeat status afterRetry.2.1
  ({ prev := some status, retries := afterRetry.2.2, downCount := outRec.downCount },
    outRec)

/-- Run a sequence of ticks from a given state, collecting the beat records. -/
def runBeatsFrom (conf : MonitorConf) (st : RunState) : List Outcome → List BeatRec
  | [] => []
  | o :: os =>
    let p := tick conf st o
    p.2 :: runBeatsFrom conf p.1 os

/-- Run a sequence of ticks from a given state, returning the final state. -/
def runStateFrom (conf : MonitorConf) (st : RunState) : List Outcome → RunState
  | [] => st
  | o :: os => runStateFrom conf (tick conf st o).1 os

/-- The initial per-monitor state (`previousBeat = null`, `retries = 0`). -/
def initState : RunState := { prev := none, retries := 0, downCount := 0 }

/-- Beat records produced by a fresh monitor for a list of tick outcomes. -/
def runBeats (conf : MonitorConf) (os : List Outcome) : List BeatRec :=
  runBeatsFrom conf initState os

/-- Final state of a fresh monitor after a list of tick outcomes. -/
def runState (conf : MonitorConf) (os : List Outcome) : RunState :=
  runStateFrom conf initState os

/-- A child monitor as seen by the group branch: its `active` flag and the
status of its latest heartbeat — `none` when the child has no prior heartbeat,
`some none` when the heartbeat row exists but its status is null (the source
comments that `lastBeat.status` can be null). -/
structure ChildInfo where
  active : Bool
  lastBeat : Option (Option Status)
deriving DecidableEq, Repr

/-- One child's effect on the group status (monitor.js:382-398): inactive
children are skipped; a child with no prior heartbeat sets PENDING; otherwise
the status only worsens, UP degrading to a PENDING/DOWN child status and
PENDING degrading to DOWN. -/
def groupStep (st : Status) (c : ChildInfo) : Status :=
  if !c.active then st
  else
    match c.lastBeat with
    | none => Status.PENDING
    | some lastStatus =>
      if st = Status.UP ∧ (lastStatus = some Status.PENDING ∨ lastStatus = some Status.DOWN) then
        lastStatus.getD st
      else if st = Status.PENDING ∧ lastStatus = some Status.DOWN then
        Status.DOWN
      else st

/-- The group branch of the beat (monitor.js:376-407): an empty group is
PENDING with msg "Group empty"; otherwise the status starts at UP, each child
is folded through `groupStep`, and the msg is "All children up and running"
for a final UP and "Child inaccessible" otherwise. -/
def groupBeat (children : List ChildInfo) : Status × String :=
  match children with
  | [] => (Status.PENDING, "Group empty")
  | _ :: _ =>
    let s := children.foldl groupStep Status.UP
    (s, if s = Status.UP then "All children up and running" else "Child inaccessible")

/-- Push monitor tick result on success: `retries` is reset, the next tick is
scheduled after `delay` ms, and no synthetic heartbeat row is stored before the
early return (monitor.js:850-854). -/
structure PushOk where
  retries : Nat
  delay : Int
  stored : Bool
deriving DecidableEq, Repr

/-- The push branch of the beat (monitor.js:830-858): with no previous beat,
or a previous beat whose status differs from the good status (UP, or DOWN
under upside-down), or more than `beatInterval*1000 + 1000` ms since the
previous beat, it throws "No heartbeat in the time window"; otherwise it
resets `retries`, schedules the next tick after the remaining window time
(floored at 0 by the `timeout < 0` branch) plus the 1 s buffer, and returns
without storing a heartbeat. -/
def pushTick (upsideDown : Bool) (beatInterval : Int) (prev : Option Status)
    (msSinceLastBeat : Int) : Except String PushOk :=
  match prev with
  | none => Except.error "No heartbeat in the time window"
  | some ps =>
    if ps ≠ (if upsideDown then Status.DOWN else Status.UP) ∨
        msSinceLastBeat > beatInterval * 1000 + 1000 then
      Except.error "No heartbeat in the time window"
    else
      let t := beatInterval * 1000 - msSinceLastBeat
      let t := if t < 0 then 1000 else t + 1000
      Except.ok { retries := 0, delay := t, stored := false }

/-- The runtime timeout patch at the start of every tick (monitor.js:366-370):
`if (!this.timeout || this.timeout <= 0) this.timeout = this.interval * 1000 * 0.8`.
`none` models an unset (undefined/null) timeout; a JS falsy numeric timeout is
covered by `≤ 0`. -/
def normalizeTimeout (timeout : Option ℚ) (interval : ℚ) : ℚ :=
  match timeout with
  | none => interval * 1000 * (8 / 10)
  | some t => if t ≤ 0 then interval * 1000 * (8 / 10) else t

/-- One certificate of a captured chain, as walked by
`checkCertExpiryNotifications`: its SHA-256 fingerprint and days remaining
(the subject CN and cert type only feed the notification text). -/
structure CertInfo where
  fingerprint256 : String
  daysRemaining : Int
deriving DecidableEq, Repr

/-- `Monitor.sendCertNotificationByTargetDays` (monitor.js:1684-1719) over
explicit state: `hist` lists the `days` values of `notification_sent_history`
rows with type 'certificate' for this monitor.  If a row with
`days ≤ targetDays` exists nothing is sent; otherwise a notification is
dispatched to every provider (dispatch modelled as succeeding, so `sent` is
true exactly when some provider is configured) and then the
`(certificate, monitorId, targetDays)` row is inserted.  Returns the
`(targetDays, daysRemaining)` pairs of the notifications sent and the updated
history. -/
def sendCertNotificationByTargetDays (providers : List String)
    (targetDays daysRemaining : Int) (hist : List Int) :
    List (Int × Int) × List Int :=
  if hist.any (fun d => decide (d ≤ targetDays)) then ([], hist)
  else if providers.isEmpty then ([], hist)
  else ([(targetDays, daysRemaining)], hist ++ [targetDays])

/-- The inner chain walk of `checkCertExpiryNotifications`
(monitor.js:1656-1668) for one threshold `targetDays`: stop at a known root
CA fingerprint, skip certificates with `daysRemaining > targetDays`, send for
the rest, following `issuerCertificate` links (the chain as a list). -/
def certChainWalk (rootCerts providers : List String) (targetDays : Int) :
    List CertInfo → List Int → List (Int × Int) × List Int
  | [], hist => ([], hist)
  | c :: rest, hist =>
    if c.fingerprint256 ∈ rootCerts then ([], hist)
    else if c.daysRemaining > targetDays then
      certChainWalk rootCerts providers targetDays rest hist
    else
      let p := sendCertNotificationByTargetDays providers targetDays c.daysRemaining hist
      let q := certChainWalk rootCerts providers targetDays rest p.2
      (p.1 ++ q.1, q.2)

/-- `Monitor.checkCertExpiryNotifications` (monitor.js:1636-1672): guarded by
a truthy leaf `daysRemaining` and a non-empty provider list; the thresholds
(the `tlsExpiryNotifyDays` setting, defaulting to `[7, 14, 21]` when unset or
not an array) are iterated in list order, walking the whole chain for each. -/
def checkCertExpiryNotifications (providers rootCerts : List String)
    (notifyDaysSetting : Option (List Int)) (chain : List CertInfo)
    (hist : List Int) : List (Int × Int) × List Int :=
  match chain with
  | [] => ([], hist)
  | leaf :: _ =>
    if leaf.daysRemaining = 0 then ([], hist)
    else if providers.isEmpty then ([], hist)
    else
      let notifyDays := notifyDaysSetting.getD [7, 14, 21]
      notifyDays.foldl
        (fun acc t =>
          let p := certChainWalk rootCerts providers t chain acc.2
          (acc.1 ++ p.1, p.2))
        ([], hist)

/-- One heartbeat row as read by `calcUptime`: its time and duration in
seconds (the SQL works in JULIANDAY differences scaled by 86400; we model
absolute times in seconds directly) and its status. -/
structure Heartbeat where
  time : ℚ
  duration : ℚ
  status : Status
deriving DecidableEq, Repr

/-- The SQL CASE trimming a beat's duration to the window
(monitor.js:1444-1449): the contribution is the elapsed time since the window
start when that is smaller than the beat's duration. -/
def trimmedDuration (startTime : ℚ) (h : Heartbeat) : ℚ :=
  if h.time - startTime < h.duration then h.time - startTime else h.duration

/-- The SQL `status = 1 OR status = 3` filter of the uptime sum: UP and
MAINTENANCE count as up. -/
def isUptimeStatus (s : Status) : Bool :=
  s == Status.UP || s == Status.MAINTENANCE

/-- `total_duration` of the `calcUptime` query: the trimmed durations summed
over the beats inside the window (`WHERE time > startTime`). -/
def totalDuration (hbs : List Heartbeat) (startTime : ℚ) : ℚ :=
  ((hbs.filter (fun h => decide (startTime < h.time))).map (trimmedDuration startTime)).sum

/-- `uptime_duration` of the `calcUptime` query: the same trimmed durations,
restricted to UP/MAINTENANCE beats. -/
def uptimeDuration (hbs : List Heartbeat) (startTime : ℚ) : ℚ :=
  ((hbs.filter (fun h => decide (startTime < h.time) && isUptimeStatus h.status)).map
    (trimmedDuration startTime)).sum

/-- `Monitor.calcUptime` (monitor.js:1426-1497) over a monitor's heartbeat
list: `uptime_duration / total_duration` clamped below at 0 when
`total_duration > 0`; otherwise the fallback `SELECT status FROM heartbeat`
row (the monitor's first/only beat) decides 1 for UP and 0 for anything else
(including no row at all, where JS `parseInt(null)` is NaN). -/
def calcUptime (hbs : List Heartbeat) (startTime : ℚ) : ℚ :=
  let total := totalDuration hbs startTime
  if 0 < total then
    let u := uptimeDuration hbs startTime / total
    if u < 0 then 0 else u
  else
    match hbs.head? with
    | some h => if h.status = Status.UP then 1 else 0
    | none => 0

end UptimeKuma

namespace UptimeKuma

open Status

/-- **C3.** For every `first` and statuses `prev`, `curr`,
`isImportantForNotification first prev curr` is true iff `first`, or
`prev=UP ∧ curr=DOWN`, or `prev=DOWN ∧ curr=UP`, or `prev=PENDING ∧ curr=DOWN`,
or `prev=MAINTENANCE ∧ curr=DOWN`; in particular no non-first transition into
MAINTENANCE, and no MAINTENANCE→UP transition, is important-for-notify. -/
theorem importantForNotification_characterization :
    (∀ (first : Bool) (prev : Option Status) (curr : Status),
      isImportantForNotification first prev curr = true ↔
        (first = true ∨ (prev = some UP ∧ curr = DOWN) ∨
          (prev = some DOWN ∧ curr = UP) ∨
          (prev = some PENDING ∧ curr = DOWN) ∨
          (prev = some MAINTENANCE ∧ curr = DOWN))) ∧
    (∀ prev : Option Status, isImportantForNotification false prev MAINTENANCE = false) ∧
    isImportantForNotification false (some MAINTENANCE) UP = false := by
  decide

/-- **C4.** A fresh monitor with `maxretries = 2` and `resendInterval = 0`
whose probe returns fail, fail, fail, success produces beat statuses
PENDING, PENDING, DOWN, UP, important flags true, false, true, true, and a
final `retries` of 0.  (`interval = 60` and `retryInterval = 30` only affect
scheduling delays, not the recorded trajectory.) -/
theorem flap_with_retries_trajectory :
    (runBeats { upsideDown := false, maxretries := 2, resendInterval := 0 }
        [Outcome.probeError "connect ECONNREFUSED", Outcome.probeError "connect ECONNREFUSED",
          Outcome.probeError "connect ECONNREFUSED", Outcome.probe UP "200 - OK"]).map
        (fun r => (r.status, r.important)) =
      [(PENDING, true), (PENDING, false), (DOWN, true), (UP, true)] ∧
    (runState { upsideDown := false, maxretries := 2, resendInterval := 0 }
        [Outcome.probeError "connect ECONNREFUSED", Outcome.probeError "connect ECONNREFUSED",
          Outcome.probeError "connect ECONNREFUSED", Outcome.probe UP "200 - OK"]).retries = 0 := by
  decide

/-- Per-beat downCount facts about the importance/downCount block: the stored
`downCount` stays below `resendInterval`, the pre-reset value never exceeds
it, an important beat stores 0, and a resend dispatch happens exactly at
`resendInterval` and resets to 0. -/
theorem beatRecOf_downCount_bound (conf : MonitorConf) (st : RunState)
    (first : Bool) (status : Status) (msg : String)
    (hst : st.downCount < conf.resendInterval) :
    (beatRecOf conf st first status msg).downCount < conf.resendInterval ∧
    (beatRecOf conf st first status msg).downCountPreReset ≤ conf.resendInterval ∧
    ((beatRecOf conf st first status msg).important = true →
      (beatRecOf conf st first status msg).downCount = 0) ∧
    ((beatRecOf conf st first status msg).resendNotified = true →
      (beatRecOf conf st first status msg).downCountPreReset = conf.resendInterval ∧
        (beatRecOf conf st first status msg).downCount = 0) := by
  simp only [beatRecOf]
  split_ifs <;> simp_all <;> omega

/-- The second component of a tick is the importance/downCount block applied
to the post-retry status and message, and the state's stored `downCount`
equals the emitted record's. -/
theorem tick_shape (conf : MonitorConf) (st : RunState) (o : Outcome) :
    ∃ status msg,
      (tick conf st o).2 = beatRecOf conf st (st.prev == none) status msg ∧
      (tick conf st o).1.downCount = (tick conf st o).2.downCount := by
  cases o <;> exact ⟨_, _, rfl, rfl⟩

/-- The downCount invariant propagated along a run. -/
theorem runBeatsFrom_downCount_inv (conf : MonitorConf) :
    ∀ (os : List Outcome) (st : RunState), st.downCount < conf.resendInterval →
      ∀ r ∈ runBeatsFrom conf st os,
        r.downCountPreReset ≤ conf.resendInterval ∧
        (r.important = true → r.downCount = 0) ∧
        (r.resendNotified = true →
          r.downCountPreReset = conf.resendInterval ∧ r.downCount = 0)
  | [], _, _ => by simp [runBeatsFrom]
  | o :: os, st, hst => by
    intro r hr
    obtain ⟨status, msg, heq, hdc⟩ := tick_shape conf st o
    have h := beatRecOf_downCount_bound conf st (st.prev == none) status msg hst
    rw [← heq] at h
    simp only [runBeatsFrom, List.mem_cons] at hr
    rcases hr with rfl | hr
    · exact ⟨h.2.1, h.2.2.1, h.2.2.2⟩
    · exact runBeatsFrom_downCount_inv conf os (tick conf st o).1
        (by rw [hdc]; exact h.1) r hr

/-- **C5.** For every monitor with `resendInterval > 0` and every sequence of
beats: the `downCount` value at the resend check never exceeds
`resendInterval` (and equals it exactly when a resend fires, after which the
stored value is 0), and `downCount` is 0 immediately after every important
beat. -/
theorem downCount_invariant (conf : MonitorConf) (os : List Outcome)
    (hR : 0 < conf.resendInterval) :
    ∀ r ∈ runBeats conf os,
      r.downCountPreReset ≤ conf.resendInterval ∧
      (r.important = true → r.downCount = 0) ∧
      (r.resendNotified = true →
        r.downCountPreReset = conf.resendInterval ∧ r.downCount = 0) :=
  runBeatsFrom_downCount_inv conf os initState (by simpa [initState] using hR)

/-- The concrete beat record produced by a fresh monitor with
`resendInterval = 2` whose first probe fails (used by the C5 witness). -/
def c5SampleConf : MonitorConf :=
  { upsideDown := false, maxretries := 0, resendInterval := 2 }

/-- The outcome list for the C5 witness run. -/
def c5SampleOutcomes : List Outcome := [Outcome.probeError "connect ECONNREFUSED"]

/-- The beat record the C5 witness instantiates the invariant at. -/
def c5SampleRec : BeatRec :=
  { status := DOWN, msg := "connect ECONNREFUSED", important := true,
    notified := true, resendNotified := false, downCount := 0,
    downCountPreReset := 0 }

/-- Witness for C5: the invariant instantiated on a concrete run (a fresh
monitor with `resendInterval = 2` whose first probe fails). -/
theorem downCount_invariant_witness :
    c5SampleRec.downCountPreReset ≤ c5SampleConf.resendInterval ∧
    (c5SampleRec.important = true → c5SampleRec.downCount = 0) ∧
    (c5SampleRec.resendNotified = true →
      c5SampleRec.downCountPreReset = c5SampleConf.resendInterval ∧
        c5SampleRec.downCount = 0) :=
  downCount_invariant c5SampleConf c5SampleOutcomes (by decide) c5SampleRec
    (by decide)

/-- JS `String.includes` on lists of characters: does `needle` occur as a
contiguous substring of the first argument? -/
def containsSub : List Char → List Char → Bool
  | [], needle => needle.isEmpty
  | c :: rest, needle => needle.isPrefixOf (c :: rest) || containsSub rest needle

/-- **C8 counterexample.** Upside-down monitor, probe succeeds with an
accepted HTTP 200 (`"200 - OK"`): the emitted beat's msg is exactly
`"Flip UP to DOWN"`; it does NOT include the probe's UP message, refuting the
claim's msg clause at this concrete input. -/
theorem upsideDown_msg_counterexample :
    (tick { upsideDown := true, maxretries := 0, resendInterval := 0 }
        { prev := some UP, retries := 0, downCount := 0 }
        (Outcome.probe UP "200 - OK")).2.msg = "Flip UP to DOWN" ∧
    containsSub ((tick { upsideDown := true, maxretries := 0, resendInterval := 0 }
        { prev := some UP, retries := 0, downCount := 0 }
        (Outcome.probe UP "200 - OK")).2.msg).data ("200 - OK").data = false := by
  decide

/-- **C8 amended.** For an upside-down monitor whose probe succeeds with an
accepted HTTP 200: the emitted beat has status DOWN when retries are exhausted
(here `maxretries = 0`), its msg is exactly the inversion marker
`"Flip UP to DOWN"` (the probe's UP message is overwritten, not included), the
UP→DOWN transition is classified as important and important-for-notify, and
the flipped DOWN is treated as a probe error for retry accounting (with
`maxretries = 2` it becomes PENDING and increments `retries`). -/
theorem upsideDown_inversion_amended :
    (tick { upsideDown := true, maxretries := 0, resendInterval := 0 }
        { prev := some UP, retries := 0, downCount := 0 }
        (Outcome.probe UP "200 - OK")).2 =
      { status := DOWN, msg := "Flip UP to DOWN", important := true,
        notified := true, resendNotified := false, downCount := 0,
        downCountPreReset := 0 } ∧
    (tick { upsideDown := true, maxretries := 2, resendInterval := 0 }
        { prev := some UP, retries := 0, downCount := 0 }
        (Outcome.probe UP "200 - OK")).2.status = PENDING ∧
    (tick { upsideDown := true, maxretries := 2, resendInterval := 0 }
        { prev := some UP, retries := 0, downCount := 0 }
        (Outcome.probe UP "200 - OK")).1.retries = 1 := by
  decide

/-- **C10.** `Monitor.sendNotification` runs the pre-command and dispatches
provider notifications exactly when the beat is not the first beat or its
status is DOWN; hence a first beat with status UP, PENDING or MAINTENANCE sends
nothing and runs no pre-command, even though
`isImportantForNotification true prev curr` is true for every first beat. -/
theorem sendNotification_first_beat_gate :
    (∀ (first : Bool) (s : Status),
      ((sendNotification first s).preCommandRun = true ∧
        (sendNotification first s).providersDispatched = true) ↔
        (first = false ∨ s = DOWN)) ∧
    sendNotification true UP = { preCommandRun := false, providersDispatched := false } ∧
    sendNotification true PENDING = { preCommandRun := false, providersDispatched := false } ∧
    sendNotification true MAINTENANCE = { preCommandRun := false, providersDispatched := false } ∧
    (∀ (prev : Option Status) (curr : Status),
      isImportantForNotification true prev curr = true) := by
  decide

/-- **C6.** Group aggregation: an empty group yields PENDING with msg
"Group empty"; otherwise starting from UP each child is folded: inactive
children are skipped, an active child with no prior heartbeat sets the status
to PENDING, a PENDING/DOWN child status degrades UP to that status, a DOWN
child degrades PENDING to DOWN, and the final msg is "All children up and
running" iff the final status is UP, else "Child inaccessible"; in particular
active children with last statuses UP, PENDING, UP yield PENDING. -/
theorem group_aggregation :
    groupBeat [] = (PENDING, "Group empty") ∧
    (∀ (s : Status) (lb : Option (Option Status)),
      groupStep s { active := false, lastBeat := lb } = s) ∧
    (∀ s : Status, groupStep s { active := true, lastBeat := none } = PENDING) ∧
    groupStep UP { active := true, lastBeat := some (some PENDING) } = PENDING ∧
    groupStep UP { active := true, lastBeat := some (some DOWN) } = DOWN ∧
    groupStep PENDING { active := true, lastBeat := some (some DOWN) } = DOWN ∧
    (∀ s : Status, groupStep s { active := true, lastBeat := some (some UP) } = s) ∧
    (∀ s : Status, groupStep s { active := true, lastBeat := some (some MAINTENANCE) } = s) ∧
    (∀ s : Status, groupStep s { active := true, lastBeat := some none } = s) ∧
    (∀ (c : ChildInfo) (cs : List ChildInfo),
      (groupBeat (c :: cs)).1 = (c :: cs).foldl groupStep UP ∧
      (groupBeat (c :: cs)).2 =
        (if (groupBeat (c :: cs)).1 = UP then "All children up and running"
          else "Child inaccessible")) ∧
    groupBeat
        [{ active := true, lastBeat := some (some UP) },
          { active := true, lastBeat := some (some PENDING) },
          { active := true, lastBeat := some (some UP) }] =
      (PENDING, "Child inaccessible") := by
  refine ⟨by decide, by decide, by decide, by decide, by decide, by decide, by decide,
    by decide, by decide, ?_, by decide⟩
  intro c cs
  constructor
  · rfl
  · simp only [groupBeat]

/-- **C7.** The push branch raises "No heartbeat in the time window" iff there
is no previous heartbeat, or the previous heartbeat's status is not the good
status (UP normally, DOWN under upside-down), or the time since the previous
heartbeat exceeds `beatInterval*1000 + 1000` ms; otherwise it resets retries
to 0, schedules the next tick after the remaining time to the deadline
(clamped at 0) plus the 1 s buffer, and stores no synthetic heartbeat. -/
theorem push_window_check (upsideDown : Bool) (beatInterval ms : Int)
    (prev : Option Status) :
    (pushTick upsideDown beatInterval prev ms =
        Except.error "No heartbeat in the time window" ↔
      (prev = none ∨
        (∃ ps, prev = some ps ∧ ps ≠ (if upsideDown then DOWN else UP)) ∨
        ms > beatInterval * 1000 + 1000)) ∧
    (¬ ms > beatInterval * 1000 + 1000 →
      pushTick upsideDown beatInterval (some (if upsideDown then DOWN else UP)) ms =
        Except.ok { retries := 0,
                    delay := max (beatInterval * 1000 - ms) 0 + 1000,
                    stored := false }) := by
  refine ⟨?_, ?_⟩
  · cases prev with
    | none => simp [pushTick]
    | some ps =>
      simp only [pushTick]
      by_cases hcond : ps ≠ (if upsideDown then DOWN else UP) ∨
          ms > beatInterval * 1000 + 1000
      · rw [if_pos hcond]
        constructor
        · intro _
          rcases hcond with h1 | h1
          · exact Or.inr (Or.inl ⟨ps, rfl, h1⟩)
          · exact Or.inr (Or.inr h1)
        · intro _
          rfl
      · rw [if_neg hcond]
        push_neg at hcond
        constructor
        · intro hfalse
          exact absurd hfalse (by simp)
        · rintro (hn | ⟨ps2, hps, hne⟩ | hgt)
          · exact absurd hn (by simp)
          · have hp := Option.some.inj hps
            exact absurd (hp ▸ hcond.1) hne
          · exact absurd hgt (by omega)
  · intro h
    have hcond : ¬(((if upsideDown then DOWN else UP) ≠ (if upsideDown then DOWN else UP)) ∨
        ms > beatInterval * 1000 + 1000) := by
      push_neg
      exact ⟨rfl, by omega⟩
    simp only [pushTick]
    rw [if_neg hcond]
    have harg : (if beatInterval * 1000 - ms < 0 then (1000 : Int)
        else beatInterval * 1000 - ms + 1000) = max (beatInterval * 1000 - ms) 0 + 1000 := by
      split_ifs with ht <;> omega
    rw [harg]

/-- Witness for C7: a healthy push monitor (previous beat UP, 1 s since the
last beat, 60 s window) is rescheduled 60 s after the previous beat and stores
nothing. -/
theorem push_window_check_witness :
    pushTick false 60 (some UP) 1000 =
      Except.ok { retries := 0, delay := 60000, stored := false } := by
  have h := (push_window_check false 60 1000 (some UP)).2 (by decide)
  simpa using h

/-- **C2 (code evaluation).** At interval 60 s with timeout unset or 0, the
runtime patch sets timeout to `interval * 1000 * 0.8 = 48000`, not to
`interval * 0.8 = 48` as the claim states — while the surrounding code treats
`this.timeout` as seconds (axios gets `this.timeout * 1000`, the abort message
prints `(<timeout>s)`). -/
theorem timeout_normalization_code_eval :
    normalizeTimeout (some 0) 60 = 48000 ∧
    normalizeTimeout none 60 = 48000 ∧
    (∀ interval : ℚ, normalizeTimeout (some 0) interval = interval * 800) ∧
    ¬ (48000 : ℚ) = 60 * (8 / 10) := by
  refine ⟨by norm_num [normalizeTimeout], by norm_num [normalizeTimeout], ?_, by norm_num⟩
  intro interval
  simp only [normalizeTimeout, if_pos le_rfl]
  ring

/-- The concrete capture scenario of C1: one provider, an empty root-CA set,
default thresholds, a chain whose leaf has `daysRemaining = 10` and is not a
known root, and an empty notification_sent_history. -/
def c1Chain : List CertInfo := [{ fingerprint256 := "leafFP", daysRemaining := 10 }]

/-- **C1 counterexample.** In the C1 scenario the first capture sends exactly
one notification — for threshold 14 — and none for threshold 21, refuting the
claim that one is sent for threshold 21 and one for threshold 14: thresholds
are iterated in ascending order 7, 14, 21, and the row `days = 14` inserted at
threshold 14 already satisfies the `days ≤ 21` dedup query of threshold 21. -/
theorem certExpiry_first_capture_counterexample :
    (checkCertExpiryNotifications ["mail"] [] none c1Chain []).1 = [(14, 10)] ∧
    (checkCertExpiryNotifications ["mail"] [] none c1Chain []).1.length = 1 ∧
    (∀ p ∈ (checkCertExpiryNotifications ["mail"] [] none c1Chain []).1,
      p.1 ≠ 21 ∧ p.1 ≠ 7) := by
  decide

/-- **C1 amended.** In the C1 scenario the first capture sends exactly one
expiry notification, for threshold 14 (thresholds are evaluated in ascending
order and the inserted `days = 14` row dedups threshold 21 through the
`days ≤ t` check), inserting exactly the one row `days = 14`; no notification
is sent for threshold 7 or 21; and a repeat capture with the same fingerprint
(history preserved) sends nothing new and inserts nothing. -/
theorem certExpiry_per_threshold_dedup :
    checkCertExpiryNotifications ["mail"] [] none c1Chain [] = ([(14, 10)], [14]) ∧
    checkCertExpiryNotifications ["mail"] [] none c1Chain [14] = ([], [14]) := by
  decide

/-- A trimmed duration is nonnegative for an in-window beat with nonnegative
duration. -/
theorem trimmedDuration_nonneg (startTime : ℚ) (h : Heartbeat)
    (h1 : startTime < h.time) (h2 : 0 ≤ h.duration) :
    0 ≤ trimmedDuration startTime h := by
  unfold trimmedDuration
  split_ifs <;> linarith

/-- Every summand of `totalDuration` is nonnegative when all heartbeat
durations are nonnegative. -/
theorem totalDuration_summands_nonneg (hbs : List Heartbeat) (startTime : ℚ)
    (hd : ∀ h ∈ hbs, 0 ≤ h.duration) :
    ∀ x ∈ (hbs.filter (fun h => decide (startTime < h.time))).map
      (trimmedDuration startTime), 0 ≤ x := by
  intro x hx
  obtain ⟨h, hh, rfl⟩ := List.mem_map.mp hx
  have hm := List.mem_filter.mp hh
  exact trimmedDuration_nonneg startTime h (by simpa using hm.2) (hd h hm.1)

/-- `uptime_duration ≤ total_duration`: the uptime sum ranges over a sublist
of the total sum's beats, and all summands are nonnegative. -/
theorem uptimeDuration_le_totalDuration (hbs : List Heartbeat) (startTime : ℚ)
    (hd : ∀ h ∈ hbs, 0 ≤ h.duration) :
    uptimeDuration hbs startTime ≤ totalDuration hbs startTime := by
  unfold uptimeDuration totalDuration
  refine List.Sublist.sum_le_sum ?_ (totalDuration_summands_nonneg hbs startTime hd)
  refine List.Sublist.map _ ?_
  exact List.monotone_filter_right hbs (fun a ha => by
    simp only [Bool.and_eq_true] at ha
    exact ha.1)

/-- `uptime_duration` is nonnegative when all heartbeat durations are. -/
theorem uptimeDuration_nonneg (hbs : List Heartbeat) (startTime : ℚ)
    (hd : ∀ h ∈ hbs, 0 ≤ h.duration) :
    0 ≤ uptimeDuration hbs startTime := by
  unfold uptimeDuration
  refine List.sum_nonneg ?_
  intro x hx
  obtain ⟨h, hh, rfl⟩ := List.mem_map.mp hx
  have hm := List.mem_filter.mp hh
  simp only [Bool.and_eq_true] at hm
  exact trimmedDuration_nonneg startTime h (by simpa using hm.2.1) (hd h hm.1)

/-- **C9.** For heartbeats with nonnegative durations: when
`total_duration > 0` the computed uptime equals
`uptime_duration / total_duration` (a heartbeat contributing its trimmed
duration to `uptime_duration` iff its status is UP or MAINTENANCE); otherwise
it is 1 when the monitor's first/only heartbeat is UP and 0 when not; and in
all cases the result lies in [0, 1]. -/
theorem calcUptime_bounds (hbs : List Heartbeat) (startTime : ℚ)
    (hd : ∀ h ∈ hbs, 0 ≤ h.duration) :
    (0 < totalDuration hbs startTime →
      calcUptime hbs startTime =
        uptimeDuration hbs startTime / totalDuration hbs startTime) ∧
    (¬ 0 < totalDuration hbs startTime →
      calcUptime hbs startTime =
        (match hbs.head? with
          | some h => if h.status = Status.UP then 1 else 0
          | none => 0)) ∧
    0 ≤ calcUptime hbs startTime ∧ calcUptime hbs startTime ≤ 1 := by
  have hupt0 := uptimeDuration_nonneg hbs startTime hd
  have hle := uptimeDuration_le_totalDuration hbs startTime hd
  by_cases htot : 0 < totalDuration hbs startTime
  · have hdiv0 : 0 ≤ uptimeDuration hbs startTime / totalDuration hbs startTime :=
      div_nonneg hupt0 htot.le
    have hcal : calcUptime hbs startTime =
        uptimeDuration hbs startTime / totalDuration hbs startTime := by
      simp only [calcUptime]
      rw [if_pos htot, if_neg (not_lt.mpr hdiv0)]
    refine ⟨fun _ => hcal, fun hc => absurd htot hc, ?_, ?_⟩
    · rw [hcal]
      exact hdiv0
    · rw [hcal]
      exact (div_le_one htot).mpr hle
  · have hcal : calcUptime hbs startTime =
        (match hbs.head? with
          | some h => if h.status = Status.UP then 1 else 0
          | none => 0) := by
      simp only [calcUptime]
      rw [if_neg htot]
    refine ⟨fun hc => absurd hc htot, fun _ => hcal, ?_, ?_⟩
    · rw [hcal]
      cases hbs.head? with
      | none => norm_num
      | some h => by_cases hs : h.status = UP <;> simp [hs]
    · rw [hcal]
      cases hbs.head? with
      | none => norm_num
      | some h => by_cases hs : h.status = UP <;> simp [hs]

/-- The concrete heartbeat list for the C9 witness: one 4 s UP beat and one
6 s DOWN beat, both inside the window starting at 0. -/
def c9SampleBeats : List Heartbeat :=
  [{ time := 10, duration := 4, status := UP },
    { time := 20, duration := 6, status := DOWN }]

/-- Witness for C9: the bounds instantiated at a concrete heartbeat list. -/
theorem calcUptime_bounds_witness :
    0 ≤ calcUptime c9SampleBeats 0 ∧ calcUptime c9SampleBeats 0 ≤ 1 :=
  ⟨(calcUptime_bounds c9SampleBeats 0 (by decide)).2.2.1,
    (calcUptime_bounds c9SampleBeats 0 (by decide)).2.2.2⟩

end UptimeKuma
